import Mathlib

/-!
Shallow embedding of the enrollment decision engine of the
vibe-coding workshop enrollment app.

The authoritative source is the multi-session `EnrollmentService`
(file `src/unnamed/part_002` of the repository): constants and types from
the `@/types` module (`src/unnamed/part_006`), the statistics and
admission rules `getEnrollmentStats` / `canEnroll`, the second-session
restriction helpers, and the `enroll` state transition including the
rollback performed when the durable-store save fails after retries.

Modelling conventions:
* TypeScript numbers are `Nat` where the source only counts, and `Int`
  for the quota-remaining fields that the source computes by subtraction
  (which can be negative in TypeScript).
* The asynchronous `saveData` call inside `enroll` is abstracted by a
  `SaveOutcome` parameter: `ok` when the durable write (after the retry
  loop) succeeded, `fail err` when it failed after all retries with the
  final error `err`.  The retry loop's timing is irrelevant to the
  resulting state and is not modelled.
* `Date.now()` and the current wall clock are passed in as `now : Nat`
  (milliseconds since epoch).  The random suffix of generated ids is
  abstracted away: ids are derived from `now` only; no claim depends on
  the id contents.
* The sessions map is modelled as a total function from session id to
  `EnrollmentState`; the constructor of the service initialises every
  configured session with an empty state, and the engine only ever
  touches the session it targets.
-/

/-- Embeds `ParticipationType` from `src/unnamed/part_006`. -/
inductive ParticipationType where
  | local_
  | remote
deriving DecidableEq, Repr

/-- Embeds `Participant` from `src/unnamed/part_006` (multi-session variant):
id, name, quota flag, attendance mode, admission time, session id. -/
structure Participant where
  id : String
  name : String
  needsDiversityQuota : Bool
  participationType : ParticipationType
  enrolledAt : Nat
  sessionId : String
deriving DecidableEq, Repr

/-- The candidate record passed to `enroll`: a `Participant` without
`id` and `enrolledAt` (`Omit<Participant, 'id' | 'enrolledAt'>`). -/
structure Candidate where
  name : String
  needsDiversityQuota : Bool
  participationType : ParticipationType
  sessionId : String
deriving DecidableEq, Repr

/-- Embeds `EnrollmentState` from `src/unnamed/part_006`: the enrolled list and
the FIFO waiting queue of one session. -/
structure EnrollmentState where
  enrolled : List Participant
  waitingQueue : List Participant
deriving DecidableEq, Repr

/-- Embeds `MultiSessionEnrollmentState` from `src/unnamed/part_006`, with the
session map modelled as a total function. -/
structure MultiSessionEnrollmentState where
  sessions : String → EnrollmentState

/-- Embeds `MAX_CAPACITY` from `src/unnamed/part_006`. -/
def MAX_CAPACITY : Nat := 20

/-- Embeds `MEN_QUOTA` from `src/unnamed/part_006`. -/
def MEN_QUOTA : Nat := 3

/-- Embeds `WOMEN_NON_BINARY_SPOTS` from `src/unnamed/part_006`. -/
def WOMEN_NON_BINARY_SPOTS : Nat := 17

/-- Embeds `DEFAULT_SESSION_ID` from `src/unnamed/part_006`. -/
def DEFAULT_SESSION_ID : String := "session-1"

/-- Embeds `SECOND_SESSION_RESTRICTION.restrictedSessionId`
(`src/unnamed/part_002`, line 61). -/
def restrictedSessionId : String := "session-2"

/-- Embeds `SECOND_SESSION_RESTRICTION.maxWaitingQueuePosition`
(`src/unnamed/part_002`, line 62). -/
def maxWaitingQueuePosition : Nat := 17

/-- Embeds `SECOND_SESSION_RESTRICTION.cutoffDate` as milliseconds since epoch:
2026-02-10T08:00:00+02:00 = 2026-02-10T06:00:00Z (`src/unnamed/part_002`,
line 60). -/
def cutoffDateMillis : Nat := 1770703200000

/-- Embeds `isSecondSessionRestricted` (`src/unnamed/part_002`, lines 66-69):
the gate is active while the current time is before the cutoff. -/
def isSecondSessionRestricted (now : Nat) : Bool :=
  now < cutoffDateMillis

/-- The service's empty per-session state (constructor of
`EnrollmentService`, `src/unnamed/part_002`, lines 114-126). -/
def emptySessionState : EnrollmentState :=
  { enrolled := [], waitingQueue := [] }

/-- The initial multi-session state: every session empty. -/
def initialState : MultiSessionEnrollmentState :=
  ⟨fun _ => emptySessionState⟩

/-- The result record of `getEnrollmentStats` (`src/unnamed/part_002`,
lines 400-425).  Count fields are `Nat`; the three remaining/available
fields are `Int` because the source computes them by subtraction. -/
structure EnrollmentStats where
  total : Nat
  men : Nat
  women : Nat
  availableSpots : Int
  waitingQueueLength : Nat
  menQuotaRemaining : Int
  womenNonBinarySpotsRemaining : Int
  menQuotaUsed : Nat
deriving DecidableEq, Repr

/-- Count of enrolled participants with the quota flag set
(`enrolled.filter(p => p.needsDiversityQuota).length`). -/
def quotaCount (enrolled : List Participant) : Nat :=
  (enrolled.filter (fun p => p.needsDiversityQuota)).length

/-- Count of enrolled participants without the quota flag
(`enrolled.filter(p => !p.needsDiversityQuota).length`). -/
def nonQuotaCount (enrolled : List Participant) : Nat :=
  (enrolled.filter (fun p => !p.needsDiversityQuota)).length

/-- Embeds `getEnrollmentStats` (`src/unnamed/part_002`, lines 400-425) for one
session state.  The `local` / `remote` counts are omitted: no rule or
claim reads them. -/
def getEnrollmentStats (st : EnrollmentState) : EnrollmentStats :=
  { total := st.enrolled.length
    men := quotaCount st.enrolled
    women := nonQuotaCount st.enrolled
    availableSpots := (MAX_CAPACITY : Int) - st.enrolled.length
    waitingQueueLength := st.waitingQueue.length
    menQuotaRemaining := (MEN_QUOTA : Int) - quotaCount st.enrolled
    womenNonBinarySpotsRemaining :=
      (WOMEN_NON_BINARY_SPOTS : Int) - nonQuotaCount st.enrolled
    menQuotaUsed := quotaCount st.enrolled }

/-- Reason string of the capacity-full rejection (`src/unnamed/part_002`,
line 433; the source reuses it on line 450). -/
def capacityFullReason : String := "Diversity quota full"

/-- Reason string of the quota-filled rejection (`src/unnamed/part_002`,
line 456). -/
def quotaFilledReason : String :=
  "The diversity quota spots have been filled."

/-- Reason string of the non-quota-spots-full rejection
(`src/unnamed/part_002`, line 467). -/
def womenFullReason : String :=
  "Women/non-binary spots are full. You will be added to the waiting queue."

/-- The result record of `canEnroll`. -/
structure CanEnrollResult where
  canEnroll : Bool
  reason : Option String
deriving DecidableEq, Repr

/-- Embeds `canEnroll` (`src/unnamed/part_002`, lines 427-469), the admission
decision table, evaluated against one session's state. -/
def canEnroll (needsDiversityQuota : Bool) (st : EnrollmentState) :
    CanEnrollResult :=
  let stats := getEnrollmentStats st
  if stats.total ≥ MAX_CAPACITY then
    { canEnroll := false, reason := some capacityFullReason }
  else if needsDiversityQuota then
    if stats.menQuotaRemaining > 0 then
      { canEnroll := true, reason := none }
    else if stats.womenNonBinarySpotsRemaining ≤ 0 then
      if (MAX_CAPACITY : Int) - stats.total > 0 then
        { canEnroll := true, reason := none }
      else
        { canEnroll := false, reason := some capacityFullReason }
    else
      { canEnroll := false, reason := some quotaFilledReason }
  else
    if stats.womenNonBinarySpotsRemaining > 0 then
      { canEnroll := true, reason := none }
    else
      { canEnroll := false, reason := some womenFullReason }

/-- Strip leading and trailing whitespace from a character list
(TypeScript `String.prototype.trim`, restricted to ASCII whitespace). -/
def trimCharList (l : List Char) : List Char :=
  ((l.dropWhile Char.isWhitespace).reverse.dropWhile Char.isWhitespace).reverse

/-- The name normalisation `name.toLowerCase().trim()` applied before the
first-session waiting-queue lookup, computed on the character lists so
that concrete instances evaluate. -/
def normalizeName (s : String) : String :=
  ⟨trimCharList (s.data.map Char.toLower)⟩

/-- Embeds `getParticipantPositionInFirstWaitingQueue` (`src/unnamed/part_002`,
lines 72-84): 1-based position of the first case-insensitive,
trimmed match of the name in the first session's waiting queue,
0 when not found. -/
def getParticipantPositionInFirstWaitingQueue (participantName : String)
    (state : MultiSessionEnrollmentState) : Nat :=
  let firstSessionState := state.sessions "session-1"
  let normalizedName := normalizeName participantName
  match firstSessionState.waitingQueue.findIdx?
      (fun p => normalizeName p.name = normalizedName) with
  | some i => i + 1
  | none => 0

/-- The result record of `canParticipantEnrollToSecondSession`. -/
structure SecondSessionCheck where
  canEnroll : Bool
  position : Nat
  reason : Option String
deriving DecidableEq, Repr

/-- Embeds `canParticipantEnrollToSecondSession` (`src/unnamed/part_002`,
lines 87-99). -/
def canParticipantEnrollToSecondSession (participantName : String)
    (state : MultiSessionEnrollmentState) : SecondSessionCheck :=
  let position := getParticipantPositionInFirstWaitingQueue participantName state
  if position = 0 then
    { canEnroll := false, position := 0,
      reason := some "not in first session waiting queue" }
  else if position > maxWaitingQueuePosition then
    { canEnroll := false, position := position,
      reason := some "beyond eligible position in waiting queue" }
  else
    { canEnroll := true, position := position, reason := none }

/-- The error object carried by a failed durable-store save: the final
error thrown by the Supabase upsert after the retry loop is exhausted.
Optional fields absent in the source error object are the empty string. -/
structure SaveError where
  message : String
  code : String
deriving DecidableEq, Repr

/-- Outcome of the `saveData` call performed inside `enroll`
(`src/unnamed/part_002`, lines 375-389): `ok` when the Supabase write
succeeded (after at most 3 retries), `fail err` when it failed after all
retries.  The unconditional local-cache write never fails the call. -/
inductive SaveOutcome where
  | ok
  | fail (err : SaveError)
deriving DecidableEq, Repr

/-- Tests whether `sub` occurs as a contiguous sublist. -/
def containsSubList (sub : List Char) : List Char → Bool
  | [] => sub.isEmpty
  | c :: tl => sub.isPrefixOf (c :: tl) || containsSubList sub tl

/-- Tests whether `sub` occurs as a substring of `s`
(TypeScript `String.prototype.includes`), computed on the character
lists so that concrete instances evaluate. -/
def strContainsSubstr (s sub : String) : Bool :=
  containsSubList sub.data s.data

/-- The network-error classification applied to a failed save result
(`src/unnamed/part_002`, lines 518-521, 577-580 and 629-632, identical
in the three branches). -/
def isNetworkError (err : SaveError) : Bool :=
  strContainsSubstr err.message "fetch" ||
  strContainsSubstr err.message "network" ||
  err.code = "PGRST301" ||
  strContainsSubstr err.message "timeout"

/-- Success message of a plain admission (`src/unnamed/part_002`,
line 619). -/
def enrolledMessage : String := "Successfully enrolled!"

/-- Success message of the normal waiting-queue path
(`src/unnamed/part_002`, line 570). -/
def addedToQueueMessage : String := "Added to waiting queue"

/-- Network-failure message of the waiting-queue paths
(`src/unnamed/part_002`, lines 526 and 585). -/
def networkErrorQueueMessage : String :=
  "Network error - please check your connection and try again. You were not added to the waiting queue."

/-- Network-failure message of the admission path
(`src/unnamed/part_002`, line 637). -/
def networkErrorEnrollMessage : String :=
  "Network error - please check your connection and try again. Your enrollment was not saved."

/-- Non-network backend failure message (`src/unnamed/part_002`,
lines 531, 590 and 642). -/
def databaseErrorMessage : String :=
  "Database error - please try again or contact support if the problem persists."

/-- The cutoff date rendered by `toLocaleDateString('en-GB', ...)`
(`src/unnamed/part_002`, lines 499-507); the exact rendering depends on
the runtime locale data and time zone, this is the shape produced for
the configured cutoff in the Finnish deployment time zone. -/
def cutoffDateFormatted : String :=
  "Tuesday, 10 February 2026 at 08:00 GMT+2"

/-- Success message of the gate's rank-0 branch (`src/unnamed/part_002`,
lines 509-513): cites the cutoff date and the eligible-rank threshold. -/
def secondSessionQueueMessage : String :=
  "Until " ++ cutoffDateFormatted ++ ", only the first " ++
  toString maxWaitingQueuePosition ++
  " participants from the first session waiting queue can enroll directly to the second session. You have been added to the second session waiting queue."

/-- Informational message of the gate's beyond-threshold branch
(`src/unnamed/part_002`, lines 537-540). -/
def beyondPositionMessage (position : Nat) : String :=
  "You are at position " ++ toString position ++
  " in the first session waiting queue. Only the first " ++
  toString maxWaitingQueuePosition ++
  " participants can enroll to the second session during the restriction period. You are already in the queue system."

/-- The result record of `enroll`: `addedToQueue` is `none` when the
optional field is absent in the returned object. -/
structure EnrollResult where
  success : Bool
  message : String
  addedToQueue : Option Bool
deriving DecidableEq, Repr

/-- Generated id of a queued participant
(`waiting-${Date.now()}-${random}`; random suffix abstracted away). -/
def mkWaitingId (now : Nat) : String := "waiting-" ++ toString now

/-- Generated id of an enrolled participant
(`enrolled-${Date.now()}-${random}`; random suffix abstracted away). -/
def mkEnrolledId (now : Nat) : String := "enrolled-" ++ toString now

/-- The participant object constructed from the candidate at admission
or queueing time (`{...participant, sessionId, id, enrolledAt}`). -/
def mkParticipant (c : Candidate) (sessionId : String) (id : String)
    (now : Nat) : Participant :=
  { id := id, name := c.name,
    needsDiversityQuota := c.needsDiversityQuota,
    participationType := c.participationType,
    enrolledAt := now, sessionId := sessionId }

/-- Replace one session's state in the multi-session map
(`this.state.sessions[sessionId] = ...` / in-place mutation of that
entry). -/
def setSession (state : MultiSessionEnrollmentState) (sessionId : String)
    (st : EnrollmentState) : MultiSessionEnrollmentState :=
  ⟨fun s => if s = sessionId then st else state.sessions s⟩

/-- Embeds `this.state.sessions[sessionId].waitingQueue.push(p)`. -/
def pushWaiting (state : MultiSessionEnrollmentState) (sessionId : String)
    (p : Participant) : MultiSessionEnrollmentState :=
  setSession state sessionId
    { state.sessions sessionId with
      waitingQueue := (state.sessions sessionId).waitingQueue ++ [p] }

/-- Embeds `this.state.sessions[sessionId].waitingQueue.pop()` (the rollback of
a failed queue save). -/
def popWaiting (state : MultiSessionEnrollmentState) (sessionId : String) :
    MultiSessionEnrollmentState :=
  setSession state sessionId
    { state.sessions sessionId with
      waitingQueue := (state.sessions sessionId).waitingQueue.dropLast }

/-- Embeds `this.state.sessions[sessionId].enrolled.push(p)`. -/
def pushEnrolled (state : MultiSessionEnrollmentState) (sessionId : String)
    (p : Participant) : MultiSessionEnrollmentState :=
  setSession state sessionId
    { state.sessions sessionId with
      enrolled := (state.sessions sessionId).enrolled ++ [p] }

/-- Embeds `this.state.sessions[sessionId].enrolled.pop()` (the rollback of a
failed admission save). -/
def popEnrolled (state : MultiSessionEnrollmentState) (sessionId : String) :
    MultiSessionEnrollmentState :=
  setSession state sessionId
    { state.sessions sessionId with
      enrolled := (state.sessions sessionId).enrolled.dropLast }

/-- The session id an enroll call operates on:
`participant.sessionId || DEFAULT_SESSION_ID` (`src/unnamed/part_002`,
line 473; the empty string is the only falsy string). -/
def effectiveSessionId (c : Candidate) : String :=
  if c.sessionId = "" then DEFAULT_SESSION_ID else c.sessionId

/-- The part of `enroll` from line 545 on (`src/unnamed/part_002`,
lines 545-646): normal admission evaluation against the target session,
the non-quota overflow path into the waiting queue, and the rollback of
either optimistic mutation when the save fails. -/
def enrollCore (c : Candidate) (sessionId : String) (now : Nat)
    (save : SaveOutcome) (state : MultiSessionEnrollmentState) :
    EnrollResult × MultiSessionEnrollmentState :=
  let st := state.sessions sessionId
  let canEnrollResult := canEnroll c.needsDiversityQuota st
  if canEnrollResult.canEnroll = false then
    if c.needsDiversityQuota = false ∧
        (getEnrollmentStats st).womenNonBinarySpotsRemaining ≤ 0 then
      let newParticipant := mkParticipant c sessionId (mkWaitingId now) now
      let state1 := pushWaiting state sessionId newParticipant
      match save with
      | .ok =>
        ({ success := true, message := addedToQueueMessage,
           addedToQueue := some true }, state1)
      | .fail err =>
        let state2 := popWaiting state1 sessionId
        if isNetworkError err then
          ({ success := false, message := networkErrorQueueMessage,
             addedToQueue := none }, state2)
        else
          ({ success := false, message := databaseErrorMessage,
             addedToQueue := none }, state2)
    else
      ({ success := false,
         message := canEnrollResult.reason.getD "Cannot enroll",
         addedToQueue := none }, state)
  else
    let newParticipant := mkParticipant c sessionId (mkEnrolledId now) now
    let state1 := pushEnrolled state sessionId newParticipant
    match save with
    | .ok =>
      ({ success := true, message := enrolledMessage,
         addedToQueue := none }, state1)
    | .fail err =>
      let state2 := popEnrolled state1 sessionId
      if isNetworkError err then
        ({ success := false, message := networkErrorEnrollMessage,
           addedToQueue := none }, state2)
      else
        ({ success := false, message := databaseErrorMessage,
           addedToQueue := none }, state2)

/-- The second-session gate branch of `enroll` (`src/unnamed/part_002`,
lines 477-543): rank 0 queues the candidate on the second session's own
waiting queue (with rollback on save failure), a rank beyond the
threshold is an informational no-op, and an eligible rank falls through
to the normal evaluation. -/
def enrollGate (c : Candidate) (sessionId : String) (now : Nat)
    (save : SaveOutcome) (state : MultiSessionEnrollmentState) :
    EnrollResult × MultiSessionEnrollmentState :=
  let eligibilityCheck := canParticipantEnrollToSecondSession c.name state
  if eligibilityCheck.canEnroll = false then
    if eligibilityCheck.position = 0 then
      let newParticipant := mkParticipant c sessionId (mkWaitingId now) now
      let state1 := pushWaiting state sessionId newParticipant
      match save with
      | .ok =>
        ({ success := true, message := secondSessionQueueMessage,
           addedToQueue := some true }, state1)
      | .fail err =>
        let state2 := popWaiting state1 sessionId
        if isNetworkError err then
          ({ success := false, message := networkErrorQueueMessage,
             addedToQueue := none }, state2)
        else
          ({ success := false, message := databaseErrorMessage,
             addedToQueue := none }, state2)
    else
      ({ success := true,
         message := beyondPositionMessage eligibilityCheck.position,
         addedToQueue := none }, state)
  else
    enrollCore c sessionId now save state

/-- Embeds `EnrollmentService.enroll` (`src/unnamed/part_002`, lines 471-646):
the full state transition of one enroll call, parameterised by the
current time and the outcome of the durable-store save. -/
def enroll (c : Candidate) (now : Nat) (save : SaveOutcome)
    (state : MultiSessionEnrollmentState) :
    EnrollResult × MultiSessionEnrollmentState :=
  let sessionId := effectiveSessionId c
  if sessionId = restrictedSessionId ∧ isSecondSessionRestricted now then
    enrollGate c sessionId now save state
  else
    enrollCore c sessionId now save state

/-- A trace of enroll calls, executed in order from a starting state
(each entry: candidate, wall-clock time, save outcome). -/
def runTrace (trace : List (Candidate × Nat × SaveOutcome))
    (state : MultiSessionEnrollmentState) : MultiSessionEnrollmentState :=
  match trace with
  | [] => state
  | (c, now, save) :: rest => runTrace rest (enroll c now save state).2

/-! ## Basic lemmas about the state map and the rollback operations -/

lemma sessions_setSession (state : MultiSessionEnrollmentState)
    (sid : String) (st : EnrollmentState) (s : String) :
    (setSession state sid st).sessions s =
      if s = sid then st else state.sessions s := rfl

lemma popWaiting_pushWaiting (state : MultiSessionEnrollmentState)
    (sid : String) (p : Participant) (s : String) :
    (popWaiting (pushWaiting state sid p) sid).sessions s =
      state.sessions s := by
  by_cases h : s = sid <;>
    simp [popWaiting, pushWaiting, setSession, h, List.dropLast_concat]

lemma popEnrolled_pushEnrolled (state : MultiSessionEnrollmentState)
    (sid : String) (p : Participant) (s : String) :
    (popEnrolled (pushEnrolled state sid p) sid).sessions s =
      state.sessions s := by
  by_cases h : s = sid <;>
    simp [popEnrolled, pushEnrolled, setSession, h, List.dropLast_concat]

lemma quotaCount_append (l : List Participant) (p : Participant) :
    quotaCount (l ++ [p]) =
      quotaCount l + (if p.needsDiversityQuota then 1 else 0) := by
  by_cases h : p.needsDiversityQuota <;>
    simp [quotaCount, List.filter_append, h]

lemma nonQuotaCount_append (l : List Participant) (p : Participant) :
    nonQuotaCount (l ++ [p]) =
      nonQuotaCount l + (if p.needsDiversityQuota then 0 else 1) := by
  by_cases h : p.needsDiversityQuota <;>
    simp [nonQuotaCount, List.filter_append, h]

/-! ## Lemmas about the admission decision table -/

lemma canEnroll_capacity (q : Bool) (st : EnrollmentState)
    (h : MAX_CAPACITY ≤ st.enrolled.length) :
    canEnroll q st =
      { canEnroll := false, reason := some capacityFullReason } := by
  simp [canEnroll, getEnrollmentStats, h]

lemma canEnroll_true_total_lt (q : Bool) (st : EnrollmentState)
    (h : (canEnroll q st).canEnroll = true) :
    st.enrolled.length < MAX_CAPACITY := by
  by_contra hge
  push_neg at hge
  rw [canEnroll_capacity q st hge] at h
  simp at h

lemma canEnroll_quota_iff (st : EnrollmentState)
    (h : st.enrolled.length < MAX_CAPACITY) :
    (canEnroll true st).canEnroll = true ↔
      (quotaCount st.enrolled < MEN_QUOTA ∨
       WOMEN_NON_BINARY_SPOTS ≤ nonQuotaCount st.enrolled) := by
  simp only [canEnroll, getEnrollmentStats]
  split_ifs <;> simp_all [MAX_CAPACITY, MEN_QUOTA, WOMEN_NON_BINARY_SPOTS]
  all_goals omega

lemma canEnroll_quota_reject (st : EnrollmentState)
    (h : st.enrolled.length < MAX_CAPACITY)
    (hq : MEN_QUOTA ≤ quotaCount st.enrolled)
    (hw : nonQuotaCount st.enrolled < WOMEN_NON_BINARY_SPOTS) :
    canEnroll true st =
      { canEnroll := false, reason := some quotaFilledReason } := by
  simp only [canEnroll, getEnrollmentStats]
  split_ifs <;> first
    | rfl
    | (exfalso;
       simp_all [MAX_CAPACITY, MEN_QUOTA, WOMEN_NON_BINARY_SPOTS];
       try omega)

lemma canEnroll_nonquota_full (st : EnrollmentState)
    (hw : WOMEN_NON_BINARY_SPOTS ≤ nonQuotaCount st.enrolled) :
    (canEnroll false st).canEnroll = false := by
  simp only [canEnroll, getEnrollmentStats]
  split_ifs <;> simp_all [WOMEN_NON_BINARY_SPOTS]
  all_goals omega

/-! ## Branch characterisations of `enroll` -/

lemma secondCheck_rank0 (n : String) (state : MultiSessionEnrollmentState)
    (h : getParticipantPositionInFirstWaitingQueue n state = 0) :
    canParticipantEnrollToSecondSession n state =
      { canEnroll := false, position := 0,
        reason := some "not in first session waiting queue" } := by
  simp [canParticipantEnrollToSecondSession, h]

lemma secondCheck_beyond (n : String) (state : MultiSessionEnrollmentState)
    (h : maxWaitingQueuePosition <
      getParticipantPositionInFirstWaitingQueue n state) :
    canParticipantEnrollToSecondSession n state =
      { canEnroll := false,
        position := getParticipantPositionInFirstWaitingQueue n state,
        reason := some "beyond eligible position in waiting queue" } := by
  have h0 : getParticipantPositionInFirstWaitingQueue n state ≠ 0 := by
    simp only [maxWaitingQueuePosition] at h; omega
  simp [canParticipantEnrollToSecondSession, h0, h]

lemma enroll_not_gate (c : Candidate) (now : Nat) (save : SaveOutcome)
    (state : MultiSessionEnrollmentState)
    (h : ¬(effectiveSessionId c = restrictedSessionId ∧
           isSecondSessionRestricted now = true)) :
    enroll c now save state =
      enrollCore c (effectiveSessionId c) now save state := by
  simp only [enroll]
  rw [if_neg h]

lemma enroll_gate (c : Candidate) (now : Nat) (save : SaveOutcome)
    (state : MultiSessionEnrollmentState)
    (h1 : effectiveSessionId c = restrictedSessionId)
    (h2 : isSecondSessionRestricted now = true) :
    enroll c now save state =
      enrollGate c (effectiveSessionId c) now save state := by
  simp only [enroll]
  rw [if_pos ⟨h1, h2⟩]

lemma enrollCore_reject (c : Candidate) (sid : String) (now : Nat)
    (save : SaveOutcome) (state : MultiSessionEnrollmentState)
    (hrej : (canEnroll c.needsDiversityQuota (state.sessions sid)).canEnroll
      = false)
    (hnq : ¬(c.needsDiversityQuota = false ∧
        (getEnrollmentStats
          (state.sessions sid)).womenNonBinarySpotsRemaining ≤ 0)) :
    enrollCore c sid now save state =
      ({ success := false,
         message := (canEnroll c.needsDiversityQuota
           (state.sessions sid)).reason.getD "Cannot enroll",
         addedToQueue := none }, state) := by
  simp only [enrollCore]
  rw [if_pos hrej, if_neg hnq]

lemma enrollCore_queue_ok (c : Candidate) (sid : String) (now : Nat)
    (state : MultiSessionEnrollmentState)
    (hrej : (canEnroll c.needsDiversityQuota (state.sessions sid)).canEnroll
      = false)
    (hq : c.needsDiversityQuota = false)
    (hw : (getEnrollmentStats
      (state.sessions sid)).womenNonBinarySpotsRemaining ≤ 0) :
    enrollCore c sid now .ok state =
      ({ success := true, message := addedToQueueMessage,
         addedToQueue := some true },
       pushWaiting state sid (mkParticipant c sid (mkWaitingId now) now)) := by
  simp only [enrollCore]
  rw [if_pos hrej, if_pos ⟨hq, hw⟩]

lemma enrollCore_queue_fail (c : Candidate) (sid : String) (now : Nat)
    (err : SaveError) (state : MultiSessionEnrollmentState)
    (hrej : (canEnroll c.needsDiversityQuota (state.sessions sid)).canEnroll
      = false)
    (hq : c.needsDiversityQuota = false)
    (hw : (getEnrollmentStats
      (state.sessions sid)).womenNonBinarySpotsRemaining ≤ 0) :
    enrollCore c sid now (.fail err) state =
      (if isNetworkError err then
        ({ success := false, message := networkErrorQueueMessage,
           addedToQueue := none },
         popWaiting (pushWaiting state sid
           (mkParticipant c sid (mkWaitingId now) now)) sid)
      else
        ({ success := false, message := databaseErrorMessage,
           addedToQueue := none },
         popWaiting (pushWaiting state sid
           (mkParticipant c sid (mkWaitingId now) now)) sid)) := by
  simp only [enrollCore]
  rw [if_pos hrej, if_pos ⟨hq, hw⟩]

lemma enrollCore_admit_ok (c : Candidate) (sid : String) (now : Nat)
    (state : MultiSessionEnrollmentState)
    (hadm : (canEnroll c.needsDiversityQuota (state.sessions sid)).canEnroll
      = true) :
    enrollCore c sid now .ok state =
      ({ success := true, message := enrolledMessage, addedToQueue := none },
       pushEnrolled state sid
         (mkParticipant c sid (mkEnrolledId now) now)) := by
  simp only [enrollCore]
  rw [if_neg (by simp [hadm])]

lemma enrollCore_admit_fail (c : Candidate) (sid : String) (now : Nat)
    (err : SaveError) (state : MultiSessionEnrollmentState)
    (hadm : (canEnroll c.needsDiversityQuota (state.sessions sid)).canEnroll
      = true) :
    enrollCore c sid now (.fail err) state =
      (if isNetworkError err then
        ({ success := false, message := networkErrorEnrollMessage,
           addedToQueue := none },
         popEnrolled (pushEnrolled state sid
           (mkParticipant c sid (mkEnrolledId now) now)) sid)
      else
        ({ success := false, message := databaseErrorMessage,
           addedToQueue := none },
         popEnrolled (pushEnrolled state sid
           (mkParticipant c sid (mkEnrolledId now) now)) sid)) := by
  simp only [enrollCore]
  rw [if_neg (by simp [hadm])]

lemma enrollGate_rank0_ok (c : Candidate) (sid : String) (now : Nat)
    (state : MultiSessionEnrollmentState)
    (hpos : getParticipantPositionInFirstWaitingQueue c.name state = 0) :
    enrollGate c sid now .ok state =
      ({ success := true, message := secondSessionQueueMessage,
         addedToQueue := some true },
       pushWaiting state sid (mkParticipant c sid (mkWaitingId now) now)) := by
  simp [enrollGate, secondCheck_rank0 c.name state hpos]

lemma enrollGate_rank0_fail (c : Candidate) (sid : String) (now : Nat)
    (err : SaveError) (state : MultiSessionEnrollmentState)
    (hpos : getParticipantPositionInFirstWaitingQueue c.name state = 0) :
    enrollGate c sid now (.fail err) state =
      (if isNetworkError err then
        ({ success := false, message := networkErrorQueueMessage,
           addedToQueue := none },
         popWaiting (pushWaiting state sid
           (mkParticipant c sid (mkWaitingId now) now)) sid)
      else
        ({ success := false, message := databaseErrorMessage,
           addedToQueue := none },
         popWaiting (pushWaiting state sid
           (mkParticipant c sid (mkWaitingId now) now)) sid)) := by
  simp [enrollGate, secondCheck_rank0 c.name state hpos]

lemma enrollGate_beyond (c : Candidate) (sid : String) (now : Nat)
    (save : SaveOutcome) (state : MultiSessionEnrollmentState)
    (hpos : maxWaitingQueuePosition <
      getParticipantPositionInFirstWaitingQueue c.name state) :
    enrollGate c sid now save state =
      ({ success := true,
         message := beyondPositionMessage
           (getParticipantPositionInFirstWaitingQueue c.name state),
         addedToQueue := none }, state) := by
  have h0 : getParticipantPositionInFirstWaitingQueue c.name state ≠ 0 := by
    simp only [maxWaitingQueuePosition] at hpos; omega
  simp [enrollGate, secondCheck_beyond c.name state hpos, h0]

lemma enrollGate_eligible (c : Candidate) (sid : String) (now : Nat)
    (save : SaveOutcome) (state : MultiSessionEnrollmentState)
    (h0 : getParticipantPositionInFirstWaitingQueue c.name state ≠ 0)
    (hle : getParticipantPositionInFirstWaitingQueue c.name state ≤
      maxWaitingQueuePosition) :
    enrollGate c sid now save state = enrollCore c sid now save state := by
  have : canParticipantEnrollToSecondSession c.name state =
      { canEnroll := true,
        position := getParticipantPositionInFirstWaitingQueue c.name state,
        reason := none } := by
    simp [canParticipantEnrollToSecondSession, h0, Nat.not_lt.mpr hle]
  simp [enrollGate, this]

/-! ## Concrete states used by witnesses and counterexamples -/

/-- A quota-category participant enrolled in the first session. -/
def sampleQuota (i : Nat) : Participant :=
  { id := "m" ++ toString i, name := "m" ++ toString i,
    needsDiversityQuota := true, participationType := .local_,
    enrolledAt := 0, sessionId := "session-1" }

/-- A non-quota participant enrolled in the first session. -/
def sampleNonQuota (i : Nat) : Participant :=
  { id := "w" ++ toString i, name := "w" ++ toString i,
    needsDiversityQuota := false, participationType := .remote,
    enrolledAt := 0, sessionId := "session-1" }

/-- Session state with exactly the three quota spots taken. -/
def threeQuotaState : EnrollmentState :=
  { enrolled := (List.range 3).map sampleQuota, waitingQueue := [] }

/-- Session state at full capacity: 17 non-quota and 3 quota enrolled. -/
def fullSessionState : EnrollmentState :=
  { enrolled := (List.range 17).map sampleNonQuota ++
      (List.range 3).map sampleQuota,
    waitingQueue := [] }

/-- Session state with the 17 non-quota spots taken and nothing else. -/
def seventeenNonQuotaState : EnrollmentState :=
  { enrolled := (List.range 17).map sampleNonQuota, waitingQueue := [] }

/-- Multi-session state whose first session is at full capacity. -/
def state20 : MultiSessionEnrollmentState :=
  setSession initialState "session-1" fullSessionState

/-- Multi-session state whose first session has 17 non-quota enrolled. -/
def state17 : MultiSessionEnrollmentState :=
  setSession initialState "session-1" seventeenNonQuotaState

/-- Multi-session state whose first session has a waiting queue of 18
participants named q0 .. q17. -/
def queue18State : MultiSessionEnrollmentState :=
  setSession initialState "session-1"
    { enrolled := [],
      waitingQueue := (List.range 18).map fun i =>
        { id := "q" ++ toString i, name := "q" ++ toString i,
          needsDiversityQuota := false, participationType := .remote,
          enrolledAt := 0, sessionId := "session-1" } }

/-- A non-quota candidate targeting the first session. -/
def candNonQuota1 : Candidate :=
  { name := "alice", needsDiversityQuota := false,
    participationType := .remote, sessionId := "session-1" }

/-- A quota-category candidate targeting the first session. -/
def candQuota1 : Candidate :=
  { name := "bob", needsDiversityQuota := true,
    participationType := .local_, sessionId := "session-1" }

/-- A candidate targeting the second session. -/
def candSecond : Candidate :=
  { name := "carol", needsDiversityQuota := false,
    participationType := .remote, sessionId := "session-2" }

/-- A candidate targeting the second session whose name sits at 1-based
position 18 of the first session's waiting queue in `queue18State`. -/
def candSecondQ17 : Candidate :=
  { name := "q17", needsDiversityQuota := false,
    participationType := .remote, sessionId := "session-2" }

/-- A network-class save error. -/
def netErr : SaveError := { message := "Failed to fetch", code := "" }

/-- A non-network backend save error. -/
def dbErr : SaveError :=
  { message := "duplicate key value violates constraint", code := "23505" }

example :
    canEnroll true
      { enrolled := [], waitingQueue := [] } = ⟨true, none⟩ := by decide

example : (canEnroll false fullSessionState).canEnroll = false := by decide

example :
    (enroll candNonQuota1 0 .ok state20).1 =
      { success := true, message := addedToQueueMessage,
        addedToQueue := some true } := by decide

example :
    (enroll candNonQuota1 0 (.fail netErr) state17).1.message =
      networkErrorQueueMessage := by decide

example :
    (enroll candQuota1 0 .ok
      (setSession initialState "session-1" threeQuotaState)).1.success
      = false := by decide

example : isNetworkError netErr = true := by decide

example : isNetworkError dbErr = false := by decide

example :
    getParticipantPositionInFirstWaitingQueue "q17" queue18State = 18 := by
  decide

example :
    getParticipantPositionInFirstWaitingQueue "carol" queue18State = 0 := by
  decide

/-! ## Claim theorems -/

/-- C7: with a session at or above `MAX_CAPACITY` (20) enrolled,
`canEnroll` rejects every candidate of either category with the
capacity-full reason (the literal string of that branch is
"Diversity quota full"), independently of the category — the capacity
check is decided before any category-specific rule. -/
theorem capacity_full_rejects_all (q : Bool) (st : EnrollmentState)
    (h : MAX_CAPACITY ≤ st.enrolled.length) :
    canEnroll q st =
      { canEnroll := false, reason := some capacityFullReason } :=
  canEnroll_capacity q st h

theorem capacity_full_rejects_all_witness :
    MAX_CAPACITY ≤ fullSessionState.enrolled.length ∧
    canEnroll false fullSessionState =
      { canEnroll := false, reason := some capacityFullReason } :=
  ⟨by decide, capacity_full_rejects_all false fullSessionState (by decide)⟩

/-- C2: for a session below capacity, a quota-category candidate is
admitted exactly when the quota-used count is below `MEN_QUOTA` (3) or
the non-quota count has reached `WOMEN_NON_BINARY_SPOTS` (17, the
overflow rule); otherwise the rejection carries the quota-filled
reason. -/
theorem canEnroll_quota_decision (st : EnrollmentState)
    (h : st.enrolled.length < MAX_CAPACITY) :
    ((canEnroll true st).canEnroll = true ↔
      (quotaCount st.enrolled < MEN_QUOTA ∨
       WOMEN_NON_BINARY_SPOTS ≤ nonQuotaCount st.enrolled)) ∧
    (MEN_QUOTA ≤ quotaCount st.enrolled →
      nonQuotaCount st.enrolled < WOMEN_NON_BINARY_SPOTS →
      canEnroll true st =
        { canEnroll := false, reason := some quotaFilledReason }) :=
  ⟨canEnroll_quota_iff st h, fun hq hw => canEnroll_quota_reject st h hq hw⟩

theorem canEnroll_quota_decision_witness :
    threeQuotaState.enrolled.length < MAX_CAPACITY ∧
    quotaCount threeQuotaState.enrolled = 3 ∧
    nonQuotaCount threeQuotaState.enrolled = 0 ∧
    canEnroll true threeQuotaState =
      { canEnroll := false, reason := some quotaFilledReason } :=
  ⟨by decide, by decide, by decide,
   (canEnroll_quota_decision threeQuotaState (by decide)).2
     (by decide) (by decide)⟩

/-- C9: while the second-session gate is active, a candidate targeting
the second session whose name sits beyond position
`maxWaitingQueuePosition` (17) of the first session's waiting queue gets
a successful informational answer (no queue flag, the explanatory
message) and the whole multi-session state is unchanged. -/
theorem gate_beyond_threshold_noop (c : Candidate) (now : Nat)
    (save : SaveOutcome) (state : MultiSessionEnrollmentState)
    (hsid : effectiveSessionId c = restrictedSessionId)
    (hres : isSecondSessionRestricted now = true)
    (hpos : maxWaitingQueuePosition <
      getParticipantPositionInFirstWaitingQueue c.name state) :
    (enroll c now save state).1.success = true ∧
    (enroll c now save state).1.addedToQueue = none ∧
    (enroll c now save state).1.message =
      beyondPositionMessage
        (getParticipantPositionInFirstWaitingQueue c.name state) ∧
    (enroll c now save state).2 = state := by
  rw [enroll_gate c now save state hsid hres,
    enrollGate_beyond c (effectiveSessionId c) now save state hpos]
  exact ⟨rfl, rfl, rfl, rfl⟩

theorem gate_beyond_threshold_noop_witness :
    maxWaitingQueuePosition <
      getParticipantPositionInFirstWaitingQueue candSecondQ17.name
        queue18State ∧
    (enroll candSecondQ17 0 .ok queue18State).1.success = true ∧
    (enroll candSecondQ17 0 .ok queue18State).2 = queue18State :=
  ⟨by decide,
   (gate_beyond_threshold_noop candSecondQ17 0 .ok queue18State
     (by decide) (by decide) (by decide)).1,
   (gate_beyond_threshold_noop candSecondQ17 0 .ok queue18State
     (by decide) (by decide) (by decide)).2.2.2⟩

/-- C8: while the second-session gate is active, a candidate targeting
the second session whose (normalised) name is absent from the first
session's waiting queue is appended to the second session's own waiting
queue — normal admission rules are never consulted: the equalities hold
whatever the second session's enrolled counts are — and, when the save
succeeds, the call reports success with the restriction message, which
cites the eligible-rank threshold and the cutoff date. -/
theorem gate_rank0_queued_second_session (c : Candidate) (now : Nat)
    (state : MultiSessionEnrollmentState)
    (hsid : effectiveSessionId c = restrictedSessionId)
    (hres : isSecondSessionRestricted now = true)
    (hpos : getParticipantPositionInFirstWaitingQueue c.name state = 0) :
    (enroll c now .ok state).1 =
      { success := true, message := secondSessionQueueMessage,
        addedToQueue := some true } ∧
    ((enroll c now .ok state).2.sessions restrictedSessionId).waitingQueue =
      (state.sessions restrictedSessionId).waitingQueue ++
        [mkParticipant c restrictedSessionId (mkWaitingId now) now] ∧
    ((enroll c now .ok state).2.sessions restrictedSessionId).enrolled =
      (state.sessions restrictedSessionId).enrolled ∧
    (∀ s, s ≠ restrictedSessionId →
      (enroll c now .ok state).2.sessions s = state.sessions s) ∧
    strContainsSubstr secondSessionQueueMessage
      (toString maxWaitingQueuePosition) = true ∧
    strContainsSubstr secondSessionQueueMessage cutoffDateFormatted
      = true := by
  rw [enroll_gate c now .ok state hsid hres, hsid,
    enrollGate_rank0_ok c restrictedSessionId now state hpos]
  refine ⟨rfl, ?_, ?_, ?_, by decide, by decide⟩
  · simp [pushWaiting, setSession]
  · simp [pushWaiting, setSession]
  · intro s hs
    simp [pushWaiting, setSession, hs]

theorem gate_rank0_queued_second_session_witness :
    getParticipantPositionInFirstWaitingQueue candSecond.name queue18State
      = 0 ∧
    (enroll candSecond 0 .ok queue18State).1 =
      { success := true, message := secondSessionQueueMessage,
        addedToQueue := some true } :=
  ⟨by decide,
   (gate_rank0_queued_second_session candSecond 0 queue18State
     (by decide) (by decide) (by decide)).1⟩

/-- C5: outside the second-session gate, a non-quota candidate hitting a
session whose non-quota count has reached `WOMEN_NON_BINARY_SPOTS` (17)
is not admitted to `enrolled` but appended at the tail of that session's
`waitingQueue` (preserving FIFO order), and — when the save succeeds —
the call reports success with the added-to-queue flag. -/
theorem nonquota_overflow_queued (c : Candidate) (now : Nat)
    (state : MultiSessionEnrollmentState)
    (hq : c.needsDiversityQuota = false)
    (hgate : ¬(effectiveSessionId c = restrictedSessionId ∧
      isSecondSessionRestricted now = true))
    (hfull : WOMEN_NON_BINARY_SPOTS ≤
      nonQuotaCount (state.sessions (effectiveSessionId c)).enrolled) :
    (enroll c now .ok state).1 =
      { success := true, message := addedToQueueMessage,
        addedToQueue := some true } ∧
    ((enroll c now .ok state).2.sessions (effectiveSessionId c)).waitingQueue
      = (state.sessions (effectiveSessionId c)).waitingQueue ++
        [mkParticipant c (effectiveSessionId c) (mkWaitingId now) now] ∧
    ((enroll c now .ok state).2.sessions (effectiveSessionId c)).enrolled =
      (state.sessions (effectiveSessionId c)).enrolled ∧
    ∀ s, s ≠ effectiveSessionId c →
      (enroll c now .ok state).2.sessions s = state.sessions s := by
  have hrej : (canEnroll c.needsDiversityQuota
      (state.sessions (effectiveSessionId c))).canEnroll = false := by
    rw [hq]
    exact canEnroll_nonquota_full _ hfull
  have hw : (getEnrollmentStats
      (state.sessions (effectiveSessionId c))).womenNonBinarySpotsRemaining
      ≤ 0 := by
    simp only [getEnrollmentStats, WOMEN_NON_BINARY_SPOTS] at hfull ⊢
    omega
  rw [enroll_not_gate c now .ok state hgate,
    enrollCore_queue_ok c (effectiveSessionId c) now state hrej hq hw]
  refine ⟨rfl, ?_, ?_, ?_⟩
  · simp [pushWaiting, setSession]
  · simp [pushWaiting, setSession]
  · intro s hs
    simp [pushWaiting, setSession, hs]

theorem nonquota_overflow_queued_witness :
    candNonQuota1.needsDiversityQuota = false ∧
    WOMEN_NON_BINARY_SPOTS ≤
      nonQuotaCount
        (state17.sessions (effectiveSessionId candNonQuota1)).enrolled ∧
    (enroll candNonQuota1 0 .ok state17).1 =
      { success := true, message := addedToQueueMessage,
        addedToQueue := some true } :=
  ⟨by decide, by decide,
   (nonquota_overflow_queued candNonQuota1 0 state17
     (by decide) (by decide) (by decide)).1⟩

/-- C10: outside the second-session gate path, an enroll call for a
quota-category candidate never appends to any session's waiting queue;
when such a candidate is rejected by `canEnroll` the call is a plain
failure (no queue flag) with no state change. -/
theorem quota_candidate_never_queued (c : Candidate) (now : Nat)
    (save : SaveOutcome) (state : MultiSessionEnrollmentState)
    (hq : c.needsDiversityQuota = true)
    (hgate : ¬(effectiveSessionId c = restrictedSessionId ∧
      isSecondSessionRestricted now = true)) :
    (∀ s, ((enroll c now save state).2.sessions s).waitingQueue =
      (state.sessions s).waitingQueue) ∧
    ((canEnroll true (state.sessions (effectiveSessionId c))).canEnroll
        = false →
      (enroll c now save state).1.success = false ∧
      (enroll c now save state).1.addedToQueue = none ∧
      ∀ s, (enroll c now save state).2.sessions s = state.sessions s) := by
  rw [enroll_not_gate c now save state hgate]
  by_cases hadm : (canEnroll c.needsDiversityQuota
      (state.sessions (effectiveSessionId c))).canEnroll = true
  · constructor
    · intro s
      cases save with
      | ok =>
        rw [enrollCore_admit_ok c (effectiveSessionId c) now state hadm]
        by_cases hs : s = effectiveSessionId c <;>
          simp [pushEnrolled, setSession, hs]
      | fail err =>
        rw [enrollCore_admit_fail c (effectiveSessionId c) now err state hadm]
        split_ifs <;>
          simp [popEnrolled_pushEnrolled]
    · intro hfalse
      rw [hq] at hadm
      rw [hadm] at hfalse
      simp at hfalse
  · have hrej : (canEnroll c.needsDiversityQuota
        (state.sessions (effectiveSessionId c))).canEnroll = false := by
      simpa using hadm
    rw [enrollCore_reject c (effectiveSessionId c) now save state hrej
      (by simp [hq])]
    exact ⟨fun s => rfl, fun _ => ⟨rfl, rfl, fun s => rfl⟩⟩

theorem quota_candidate_never_queued_witness :
    candQuota1.needsDiversityQuota = true ∧
    (canEnroll true
      ((setSession initialState "session-1" threeQuotaState).sessions
        (effectiveSessionId candQuota1))).canEnroll = false ∧
    (enroll candQuota1 0 .ok
      (setSession initialState "session-1" threeQuotaState)).1.success
      = false :=
  ⟨by decide, by decide,
   ((quota_candidate_never_queued candQuota1 0 .ok
      (setSession initialState "session-1" threeQuotaState)
      (by decide) (by decide)).2 (by decide)).1⟩

/-- C6 counterexample: with the first session exactly at capacity
(17 non-quota and 3 quota enrolled), a non-quota candidate is rejected
by `canEnroll` with the capacity reason — a rejection that is not the
non-quota-spots case 3b of the spec's decision table — yet `enroll`
reports success with the added-to-queue flag and mutates the waiting
queue, contradicting the claim's failure-and-no-mutation prediction. -/
theorem rejected_capacity_nonquota_queued_cex :
    (state20.sessions "session-1").enrolled.length = MAX_CAPACITY ∧
    (canEnroll candNonQuota1.needsDiversityQuota
      (state20.sessions "session-1")).canEnroll = false ∧
    (canEnroll candNonQuota1.needsDiversityQuota
      (state20.sessions "session-1")).reason = some capacityFullReason ∧
    (enroll candNonQuota1 0 .ok state20).1.success = true ∧
    (enroll candNonQuota1 0 .ok state20).1.addedToQueue = some true ∧
    ((enroll candNonQuota1 0 .ok state20).2.sessions
      "session-1").waitingQueue ≠
      (state20.sessions "session-1").waitingQueue := by
  decide

/-- C6 amended: outside the second-session gate, an enroll call rejected
by `canEnroll` returns a failure carrying the human-facing reason string
with no state mutation, provided the candidate is quota-category or the
session's non-quota count is still below 17; a rejected non-quota
candidate with non-quota count at least 17 — including at full
capacity — is instead routed to the waiting queue with success. -/
theorem rejected_no_mutation_amended (c : Candidate) (now : Nat)
    (save : SaveOutcome) (state : MultiSessionEnrollmentState)
    (hgate : ¬(effectiveSessionId c = restrictedSessionId ∧
      isSecondSessionRestricted now = true))
    (hrej : (canEnroll c.needsDiversityQuota
      (state.sessions (effectiveSessionId c))).canEnroll = false)
    (hnot3b : c.needsDiversityQuota = true ∨
      nonQuotaCount (state.sessions (effectiveSessionId c)).enrolled <
        WOMEN_NON_BINARY_SPOTS) :
    (enroll c now save state).1.success = false ∧
    (enroll c now save state).1.addedToQueue = none ∧
    (enroll c now save state).1.message =
      (canEnroll c.needsDiversityQuota
        (state.sessions (effectiveSessionId c))).reason.getD
        "Cannot enroll" ∧
    (enroll c now save state).2 = state := by
  have hnq : ¬(c.needsDiversityQuota = false ∧
      (getEnrollmentStats
        (state.sessions
          (effectiveSessionId c))).womenNonBinarySpotsRemaining ≤ 0) := by
    rcases hnot3b with h | h
    · simp [h]
    · rintro ⟨_, h2⟩
      simp only [getEnrollmentStats, WOMEN_NON_BINARY_SPOTS] at h2 h
      omega
  rw [enroll_not_gate c now save state hgate,
    enrollCore_reject c (effectiveSessionId c) now save state hrej hnq]
  exact ⟨rfl, rfl, rfl, rfl⟩

theorem rejected_no_mutation_amended_witness :
    (canEnroll candQuota1.needsDiversityQuota
      ((setSession initialState "session-1"
        threeQuotaState).sessions (effectiveSessionId
          candQuota1))).canEnroll = false ∧
    (enroll candQuota1 0 .ok
      (setSession initialState "session-1" threeQuotaState)).1.message =
      quotaFilledReason ∧
    (enroll candQuota1 0 .ok
      (setSession initialState "session-1" threeQuotaState)).2 =
      setSession initialState "session-1" threeQuotaState :=
  ⟨by decide,
   by
     have h := rejected_no_mutation_amended candQuota1 0 .ok
       (setSession initialState "session-1" threeQuotaState)
       (by decide) (by decide) (Or.inl (by decide))
     rw [h.2.2.1]
     decide,
   (rejected_no_mutation_amended candQuota1 0 .ok
     (setSession initialState "session-1" threeQuotaState)
     (by decide) (by decide) (Or.inr (by decide))).2.2.2⟩

lemma enrollCore_save_failure (c : Candidate) (sid : String) (now : Nat)
    (err : SaveError) (state : MultiSessionEnrollmentState)
    (hmut : (enrollCore c sid now .ok state).2.sessions sid ≠
      state.sessions sid) :
    (∀ s, (enrollCore c sid now (.fail err) state).2.sessions s =
      state.sessions s) ∧
    (enrollCore c sid now (.fail err) state).1.success = false ∧
    (isNetworkError err = true →
      (enrollCore c sid now (.fail err) state).1.message =
        networkErrorQueueMessage ∨
      (enrollCore c sid now (.fail err) state).1.message =
        networkErrorEnrollMessage) ∧
    (isNetworkError err = false →
      (enrollCore c sid now (.fail err) state).1.message =
        databaseErrorMessage) := by
  by_cases hadm : (canEnroll c.needsDiversityQuota
      (state.sessions sid)).canEnroll = true
  · rw [enrollCore_admit_fail c sid now err state hadm]
    rcases hnet : isNetworkError err with _ | _ <;>
      simp [hnet, popEnrolled_pushEnrolled]
  · have hrej : (canEnroll c.needsDiversityQuota
        (state.sessions sid)).canEnroll = false := by simpa using hadm
    by_cases hqw : c.needsDiversityQuota = false ∧
        (getEnrollmentStats
          (state.sessions sid)).womenNonBinarySpotsRemaining ≤ 0
    · rw [enrollCore_queue_fail c sid now err state hrej hqw.1 hqw.2]
      rcases hnet : isNetworkError err with _ | _ <;>
        simp [hnet, popWaiting_pushWaiting]
    · exfalso
      apply hmut
      rw [enrollCore_reject c sid now .ok state hrej hqw]

/-- C1: when the durable-store save fails after all retries, every
session of the in-memory state is exactly as before the call — the
just-added participant has been removed — and, whenever the same call
with a successful save would have mutated the target session (an
admission or a waiting-queue append), the result is a failure whose
message distinguishes network-class errors from other backend errors.
The caller is thus never told the enrollment succeeded when the durable
write did not. -/
theorem enroll_save_failure_rolls_back (c : Candidate) (now : Nat)
    (err : SaveError) (state : MultiSessionEnrollmentState)
    (hmut : (enroll c now .ok state).2.sessions (effectiveSessionId c) ≠
      state.sessions (effectiveSessionId c)) :
    (∀ s, (enroll c now (.fail err) state).2.sessions s =
      state.sessions s) ∧
    (enroll c now (.fail err) state).1.success = false ∧
    (isNetworkError err = true →
      (enroll c now (.fail err) state).1.message =
        networkErrorQueueMessage ∨
      (enroll c now (.fail err) state).1.message =
        networkErrorEnrollMessage) ∧
    (isNetworkError err = false →
      (enroll c now (.fail err) state).1.message =
        databaseErrorMessage) := by
  by_cases hg : effectiveSessionId c = restrictedSessionId ∧
      isSecondSessionRestricted now = true
  · rw [enroll_gate c now .ok state hg.1 hg.2] at hmut
    rw [enroll_gate c now (.fail err) state hg.1 hg.2]
    by_cases hp0 : getParticipantPositionInFirstWaitingQueue c.name state = 0
    · rw [enrollGate_rank0_fail c (effectiveSessionId c) now err state hp0]
      rcases hnet : isNetworkError err with _ | _ <;>
        simp [hnet, popWaiting_pushWaiting]
    · by_cases hbey : maxWaitingQueuePosition <
          getParticipantPositionInFirstWaitingQueue c.name state
      · exfalso
        apply hmut
        rw [enrollGate_beyond c (effectiveSessionId c) now .ok state hbey]
      · have hle : getParticipantPositionInFirstWaitingQueue c.name state ≤
            maxWaitingQueuePosition := by omega
        rw [enrollGate_eligible c (effectiveSessionId c) now .ok state
          hp0 hle] at hmut
        rw [enrollGate_eligible c (effectiveSessionId c) now (.fail err)
          state hp0 hle]
        exact enrollCore_save_failure c (effectiveSessionId c) now err
          state hmut
  · rw [enroll_not_gate c now .ok state hg] at hmut
    rw [enroll_not_gate c now (.fail err) state hg]
    exact enrollCore_save_failure c (effectiveSessionId c) now err
      state hmut

theorem enroll_save_failure_rolls_back_witness :
    (enroll candNonQuota1 0 .ok initialState).2.sessions
      (effectiveSessionId candNonQuota1) ≠
      initialState.sessions (effectiveSessionId candNonQuota1) ∧
    isNetworkError netErr = true ∧
    (∀ s, (enroll candNonQuota1 0 (.fail netErr) initialState).2.sessions s
      = initialState.sessions s) ∧
    (enroll candNonQuota1 0 (.fail netErr) initialState).1.success
      = false :=
  ⟨by decide, by decide,
   (enroll_save_failure_rolls_back candNonQuota1 0 netErr initialState
     (by decide)).1,
   (enroll_save_failure_rolls_back candNonQuota1 0 netErr initialState
     (by decide)).2.1⟩

/-- Every enroll call either leaves a session's `enrolled` list unchanged
or appends exactly one participant of the candidate's category, and in
the latter case `canEnroll` admitted the candidate against that
session's previous state. -/
lemma enroll_enrolled_shape (c : Candidate) (now : Nat) (save : SaveOutcome)
    (state : MultiSessionEnrollmentState) (s : String) :
    ((enroll c now save state).2.sessions s).enrolled =
      (state.sessions s).enrolled ∨
    ((canEnroll c.needsDiversityQuota (state.sessions s)).canEnroll
        = true ∧
      ((enroll c now save state).2.sessions s).enrolled =
        (state.sessions s).enrolled ++
          [mkParticipant c (effectiveSessionId c) (mkEnrolledId now) now]) := by
  have hcore : ∀ st : MultiSessionEnrollmentState, st = state →
      ((enrollCore c (effectiveSessionId c) now save state).2.sessions
        s).enrolled = (state.sessions s).enrolled ∨
      ((canEnroll c.needsDiversityQuota (state.sessions s)).canEnroll
          = true ∧
        ((enrollCore c (effectiveSessionId c) now save
          state).2.sessions s).enrolled =
          (state.sessions s).enrolled ++
            [mkParticipant c (effectiveSessionId c) (mkEnrolledId now) now])
      := by
    intro _ _
    by_cases hadm : (canEnroll c.needsDiversityQuota
        (state.sessions (effectiveSessionId c))).canEnroll = true
    · cases save with
      | ok =>
        rw [enrollCore_admit_ok c (effectiveSessionId c) now state hadm]
        by_cases hs : s = effectiveSessionId c
        · subst hs
          exact Or.inr ⟨hadm, by simp [pushEnrolled, setSession]⟩
        · exact Or.inl (by simp [pushEnrolled, setSession, hs])
      | fail e =>
        rw [enrollCore_admit_fail c (effectiveSessionId c) now e state hadm]
        split_ifs <;> exact Or.inl (by simp [popEnrolled_pushEnrolled])
    · have hrej : (canEnroll c.needsDiversityQuota
          (state.sessions (effectiveSessionId c))).canEnroll = false := by
        simpa using hadm
      by_cases hqw : c.needsDiversityQuota = false ∧
          (getEnrollmentStats (state.sessions
            (effectiveSessionId c))).womenNonBinarySpotsRemaining ≤ 0
      · cases save with
        | ok =>
          rw [enrollCore_queue_ok c (effectiveSessionId c) now state hrej
            hqw.1 hqw.2]
          exact Or.inl (by
            by_cases hs : s = effectiveSessionId c <;>
              simp [pushWaiting, setSession, hs])
        | fail e =>
          rw [enrollCore_queue_fail c (effectiveSessionId c) now e state
            hrej hqw.1 hqw.2]
          split_ifs <;> exact Or.inl (by simp [popWaiting_pushWaiting])
      · rw [enrollCore_reject c (effectiveSessionId c) now save state
          hrej hqw]
        exact Or.inl rfl
  by_cases hg : effectiveSessionId c = restrictedSessionId ∧
      isSecondSessionRestricted now = true
  · rw [enroll_gate c now save state hg.1 hg.2]
    by_cases hp0 : getParticipantPositionInFirstWaitingQueue c.name state = 0
    · cases save with
      | ok =>
        rw [enrollGate_rank0_ok c (effectiveSessionId c) now state hp0]
        exact Or.inl (by
          by_cases hs : s = effectiveSessionId c <;>
            simp [pushWaiting, setSession, hs])
      | fail e =>
        rw [enrollGate_rank0_fail c (effectiveSessionId c) now e state hp0]
        split_ifs <;> exact Or.inl (by simp [popWaiting_pushWaiting])
    · by_cases hbey : maxWaitingQueuePosition <
          getParticipantPositionInFirstWaitingQueue c.name state
      · rw [enrollGate_beyond c (effectiveSessionId c) now save state hbey]
        exact Or.inl rfl
      · have hle : getParticipantPositionInFirstWaitingQueue c.name state ≤
            maxWaitingQueuePosition := by omega
        rw [enrollGate_eligible c (effectiveSessionId c) now save state
          hp0 hle]
        exact hcore state rfl
  · rw [enroll_not_gate c now save state hg]
    exact hcore state rfl

lemma enroll_preserves_capacity (c : Candidate) (now : Nat)
    (save : SaveOutcome) (state : MultiSessionEnrollmentState) (s : String)
    (h : (state.sessions s).enrolled.length ≤ MAX_CAPACITY) :
    ((enroll c now save state).2.sessions s).enrolled.length ≤
      MAX_CAPACITY := by
  rcases enroll_enrolled_shape c now save state s with heq | ⟨hadm, heq⟩
  · rw [heq]; exact h
  · rw [heq]
    have hlt := canEnroll_true_total_lt _ _ hadm
    simp only [List.length_append, List.length_singleton]
    omega

lemma enroll_preserves_quotaInv (c : Candidate) (now : Nat)
    (save : SaveOutcome) (state : MultiSessionEnrollmentState) (s : String)
    (h : quotaCount (state.sessions s).enrolled ≤ MEN_QUOTA ∨
      WOMEN_NON_BINARY_SPOTS ≤ nonQuotaCount (state.sessions s).enrolled) :
    quotaCount ((enroll c now save state).2.sessions s).enrolled ≤
        MEN_QUOTA ∨
      WOMEN_NON_BINARY_SPOTS ≤
        nonQuotaCount ((enroll c now save state).2.sessions s).enrolled
      := by
  rcases enroll_enrolled_shape c now save state s with heq | ⟨hadm, heq⟩
  · rw [heq]; exact h
  · rw [heq, quotaCount_append, nonQuotaCount_append]
    rcases hq : c.needsDiversityQuota with _ | _
    · simp only [mkParticipant, hq, if_neg Bool.false_ne_true,
        Bool.false_eq_true, if_false]
      rcases h with h | h
      · exact Or.inl (by omega)
      · exact Or.inr (by omega)
    · rw [hq] at hadm
      have hlt := canEnroll_true_total_lt _ _ hadm
      have hiff := (canEnroll_quota_iff _ hlt).mp hadm
      simp only [mkParticipant, hq, if_pos rfl, if_true]
      rcases hiff with h' | h'
      · exact Or.inl (by
          simp only [MEN_QUOTA] at h' ⊢
          omega)
      · exact Or.inr (by omega)

lemma runTrace_preserves_capacity (trace : List (Candidate × Nat × SaveOutcome)) :
    ∀ state : MultiSessionEnrollmentState,
      (∀ s, (state.sessions s).enrolled.length ≤ MAX_CAPACITY) →
      ∀ s, ((runTrace trace state).sessions s).enrolled.length ≤
        MAX_CAPACITY := by
  induction trace with
  | nil => exact fun state h s => h s
  | cons step rest ih =>
    intro state h s
    obtain ⟨c, now, save⟩ := step
    exact ih (enroll c now save state).2
      (fun s' => enroll_preserves_capacity c now save state s' (h s')) s

lemma runTrace_preserves_quotaInv
    (trace : List (Candidate × Nat × SaveOutcome)) :
    ∀ state : MultiSessionEnrollmentState,
      (∀ s, quotaCount (state.sessions s).enrolled ≤ MEN_QUOTA ∨
        WOMEN_NON_BINARY_SPOTS ≤ nonQuotaCount (state.sessions s).enrolled) →
      ∀ s, quotaCount ((runTrace trace state).sessions s).enrolled ≤
          MEN_QUOTA ∨
        WOMEN_NON_BINARY_SPOTS ≤
          nonQuotaCount ((runTrace trace state).sessions s).enrolled := by
  induction trace with
  | nil => exact fun state h s => h s
  | cons step rest ih =>
    intro state h s
    obtain ⟨c, now, save⟩ := step
    exact ih (enroll c now save state).2
      (fun s' => enroll_preserves_quotaInv c now save state s' (h s')) s

/-- C3: in every state reachable from the initial empty state by any
sequence of enroll calls (arbitrary candidates, times and save
outcomes), every session's `enrolled` list has length at most
`MAX_CAPACITY` (20). -/
theorem enrolled_capacity_invariant
    (trace : List (Candidate × Nat × SaveOutcome)) (s : String) :
    ((runTrace trace initialState).sessions s).enrolled.length ≤
      MAX_CAPACITY :=
  runTrace_preserves_capacity trace initialState
    (fun _ => by simp [initialState, emptySessionState]) s

/-- C4: in every state reachable from the initial empty state by any
sequence of enroll calls, every session has quota-category count at most
`MEN_QUOTA` (3) or non-quota count at least `WOMEN_NON_BINARY_SPOTS`
(17): the overflow precondition holds whenever the quota count exceeds
3. -/
theorem quota_overflow_invariant
    (trace : List (Candidate × Nat × SaveOutcome)) (s : String) :
    quotaCount ((runTrace trace initialState).sessions s).enrolled ≤
        MEN_QUOTA ∨
      WOMEN_NON_BINARY_SPOTS ≤
        nonQuotaCount ((runTrace trace initialState).sessions s).enrolled :=
  runTrace_preserves_quotaInv trace initialState
    (fun _ => Or.inl (by simp [initialState, emptySessionState, quotaCount]))
    s

example :
    canEnroll true
      { enrolled :=
          [ { id := "a", name := "a", needsDiversityQuota := true,
              participationType := .remote, enrolledAt := 0,
              sessionId := "session-1" },
            { id := "b", name := "b", needsDiversityQuota := true,
              participationType := .remote, enrolledAt := 0,
              sessionId := "session-1" },
            { id := "c", name := "c", needsDiversityQuota := true,
              participationType := .remote, enrolledAt := 0,
              sessionId := "session-1" } ],
        waitingQueue := [] }
      = ⟨false, some quotaFilledReason⟩ := by decide
